import Mathlib

/-!
Verification of the c_util byte-buffer containers (stack.c, dynamic_array.c).

The containers are modelled at byte level: a backing buffer is a `List Nat`
of bytes, a C `uint64_t` value is a `Nat` reduced modulo `2 ^ 64` wherever
the C arithmetic can wrap, and every fallible C function returns its error
code together with the updated state.  A container handle is an
`Option internal_data`: `none` models a handle whose `internal_data`
pointer is NULL (the Default state).  `core_malloc` is modelled by an
explicit success flag (`allocOk`) plus a `junk` function giving the
contents of a freshly allocated, not yet zeroed block; the small
fixed-size `internal_data` allocations inside the create functions are
assumed to succeed.
-/

namespace CUtil

/-- Modulus of the C type uint64_t. -/
def U64 : Nat := 2 ^ 64

/-- Modulus of uint32_t; core_zero_memory receives its byte count as uint32_t,
so a 64-bit count passed to it is truncated modulo 2^32. -/
def U32 : Nat := 2 ^ 32

/-- Byte-store loop: writes the bytes of bs starting at offset off, one
List.set per byte, mirroring C loops of the form
for(i = 0; i != n; ++i) dst[i] = src[i].  A store past the end of the
buffer is dropped (such a store is undefined behaviour in C; no claim
below depends on one). -/
def writeBytes : List Nat → Nat → List Nat → List Nat
  | l, _, [] => l
  | l, off, b :: bs => writeBytes (l.set off b) (off + 1) bs

/-- Byte-load of n bytes at offset off; a load past the end yields 0 (such a
load is undefined behaviour in C; no claim below depends on one). -/
def readBytes (l : List Nat) (off n : Nat) : List Nat :=
  (List.range n).map (fun i => l.getD (off + i) 0)

/-- A freshly core_malloc-ed block of n bytes with arbitrary contents: the
byte at offset i is junk i.  The junk function is a parameter of the model. -/
def freshBlock (junk : Nat → Nat) (n : Nat) : List Nat :=
  (List.range n).map junk

/-- core_zero_memory(buf + off, n): zeroes n bytes starting at offset off.
The C function takes the count as uint32_t, hence the truncation. -/
def zeroFill (l : List Nat) (off n : Nat) : List Nat :=
  writeBytes l off (List.replicate (n % U32) 0)

/-! ## Dynamic array (dynamic_array.c) -/

/-- DYNAMIC_ARRAY_ERROR_CODE from dynamic_array.h. -/
inductive DYNAMIC_ARRAY_ERROR_CODE where
  | SUCCESS
  | INVALID_ARGUMENT
  | MEMORY_ALLOCATE_ERROR
  | BUFFER_FULL
  | OUT_OF_RANGE
  | INVALID_DARRAY
deriving DecidableEq

/-- dynamic_array_internal_data_t (dynamic_array_internal_data.h), with the
owned buffer inlined as its byte contents (`none` models a NULL
memory_pool). -/
structure dynamic_array_internal_data_t where
  element_size : Nat
  element_count : Nat
  buffer_capacity : Nat
  max_element_count : Nat
  aligned_element_size : Nat
  alignment_requirement : Nat
  memory_pool : Option (List Nat)
deriving DecidableEq

/-- The aligned element size (stride) computed inline by
dynamic_array_create: element_size + ((alignment - element_size mod
alignment) mod alignment), in uint64 arithmetic. -/
def darray_aligned_size (es align : Nat) : Nat :=
  (es + (align - es % align) % align) % U64

/-- dynamic_array_destroy: releases the buffer and the internal data and
stores NULL in the handle. -/
def dynamic_array_destroy (_ : Option dynamic_array_internal_data_t) :
    Option dynamic_array_internal_data_t := none

/-- dynamic_array_reserve.  Note that the allocation size is computed from
the STORED max_element_count, not from the cnt argument, and the stored
max_element_count is never updated: the cnt argument only feeds the
zero check.  The outer Option is `none` exactly when the C code would
dereference a NULL internal_data pointer (cnt nonzero on a Default
handle), which is undefined behaviour; allocOk tells whether the single
core_malloc succeeds. -/
def dynamic_array_reserve (cnt : Nat) (allocOk : Bool) (junk : Nat → Nat)
    (da : Option dynamic_array_internal_data_t) :
    Option (DYNAMIC_ARRAY_ERROR_CODE × Option dynamic_array_internal_data_t) :=
  if cnt = 0 then some (.SUCCESS, da)
  else
    match da with
    | none => none
    | some d =>
      let d1 := { d with memory_pool := (none : Option (List Nat)),
                         buffer_capacity := 0, element_count := 0 }
      let size := d1.max_element_count * d1.aligned_element_size % U64
      if allocOk then
        let pool := zeroFill (freshBlock junk size) 0 size
        some (.SUCCESS, some { d1 with memory_pool := some pool, buffer_capacity := size })
      else some (.MEMORY_ALLOCATE_ERROR, some d1)

/-- dynamic_array_create.  The zero checks on element_size and
alignment_requirement come before dynamic_array_destroy, so a rejected
call leaves the handle untouched.  The model assumes the small
internal_data allocation succeeds; the buffer allocation inside the
final dynamic_array_reserve call is governed by allocOk. -/
def dynamic_array_create (es align cnt : Nat) (allocOk : Bool) (junk : Nat → Nat)
    (da : Option dynamic_array_internal_data_t) :
    DYNAMIC_ARRAY_ERROR_CODE × Option dynamic_array_internal_data_t :=
  if es = 0 ∨ align = 0 then (.INVALID_ARGUMENT, da)
  else
    let d1 : dynamic_array_internal_data_t :=
      { element_size := es, element_count := 0, buffer_capacity := 0,
        max_element_count := cnt, aligned_element_size := darray_aligned_size es align,
        alignment_requirement := align, memory_pool := none }
    match dynamic_array_reserve cnt allocOk junk (some d1) with
    | some r => r
    | none => (.SUCCESS, some d1)   -- unreachable: the handle passed to reserve is not NULL

/-- dynamic_array_resize.  allocOk1 governs the temporary swap buffer
allocation, allocOk2 the reallocation performed through
dynamic_array_reserve; junk1/junk2 give the fresh contents of the two
blocks (the swap buffer is never zeroed).  The outer Option is `none`
when the C code would dereference a NULL internal_data pointer. -/
def dynamic_array_resize (cnt : Nat) (allocOk1 allocOk2 : Bool) (junk1 junk2 : Nat → Nat)
    (da : Option dynamic_array_internal_data_t) :
    Option (DYNAMIC_ARRAY_ERROR_CODE × Option dynamic_array_internal_data_t) :=
  if cnt = 0 then some (.SUCCESS, da)
  else
    match da with
    | none => dynamic_array_reserve cnt allocOk2 junk2 none
    | some d =>
      if cnt < d.element_count then some (.INVALID_ARGUMENT, some d)
      else if ¬ allocOk1 then some (.MEMORY_ALLOCATE_ERROR, some d)
      else
        let buffer0 := freshBlock junk1 d.buffer_capacity
        let copy_size := d.element_count * d.aligned_element_size % U64
        let buffer := writeBytes buffer0 0 (readBytes (d.memory_pool.getD []) 0 copy_size)
        let escape := d.element_count
        match dynamic_array_reserve cnt allocOk2 junk2
            (some { d with memory_pool := (none : Option (List Nat)) }) with
        | none => none   -- unreachable: the handle passed to reserve is not NULL
        | some (code, da2) =>
          if code ≠ .SUCCESS then some (code, da2)
          else
            match da2 with
            | none => none   -- unreachable: reserve keeps the internal data
            | some d2 =>
              let pool := writeBytes (d2.memory_pool.getD []) 0 (readBytes buffer 0 d2.buffer_capacity)
              some (.SUCCESS, some { d2 with memory_pool := some pool,
                                             element_count := escape,
                                             max_element_count := cnt })

/-- dynamic_array_capacity: reports buffer_capacity / aligned_element_size
through the out parameter. -/
def dynamic_array_capacity :
    Option dynamic_array_internal_data_t → DYNAMIC_ARRAY_ERROR_CODE × Option Nat
  | none => (.INVALID_DARRAY, none)
  | some d => (.SUCCESS, some (d.buffer_capacity / d.aligned_element_size))

/-- dynamic_array_size: reports element_count through the out parameter. -/
def dynamic_array_size :
    Option dynamic_array_internal_data_t → DYNAMIC_ARRAY_ERROR_CODE × Option Nat
  | none => (.INVALID_DARRAY, none)
  | some d => (.SUCCESS, some d.element_count)

/-- dynamic_array_element_push: copies element_size bytes of obj into slot
element_count, then increments element_count. -/
def dynamic_array_element_push (obj : List Nat) :
    Option dynamic_array_internal_data_t →
      DYNAMIC_ARRAY_ERROR_CODE × Option dynamic_array_internal_data_t
  | none => (.INVALID_DARRAY, none)
  | some d =>
    if d.element_count = d.max_element_count then (.BUFFER_FULL, some d)
    else
      let off := d.aligned_element_size * d.element_count % U64
      let pool := writeBytes (d.memory_pool.getD []) off (readBytes obj 0 d.element_size)
      (.SUCCESS, some { d with memory_pool := some pool, element_count := d.element_count + 1 })

/-- dynamic_array_element_ref: copies a full aligned_element_size slot at
index idx into the out buffer. -/
def dynamic_array_element_ref (idx : Nat) :
    Option dynamic_array_internal_data_t → DYNAMIC_ARRAY_ERROR_CODE × Option (List Nat)
  | none => (.INVALID_DARRAY, none)
  | some d =>
    if d.element_count ≤ idx then (.OUT_OF_RANGE, none)
    else (.SUCCESS, some (readBytes (d.memory_pool.getD [])
          (d.aligned_element_size * idx % U64) d.aligned_element_size))

/-! ## Stack (stack.c, the revision with valid_flags and overflow checks) -/

/-- STACK_ERROR_CODE from stack.h. -/
inductive STACK_ERROR_CODE where
  | SUCCESS
  | MEMORY_ALLOCATE_ERROR
  | RUNTIME_ERROR
  | INVALID_ARGUMENT
  | INVALID_STACK
  | STACK_EMPTY
  | STACK_FULL
deriving DecidableEq

/-- stack_internal_data_t (stack_internal_data.h). -/
structure stack_internal_data_t where
  element_size : Nat
  buffer_size : Nat
  max_element_count : Nat
  aligned_element_size : Nat
  top_index : Nat
  alignment_requirement : Nat
  valid_flags : Nat
  memory_pool : Option (List Nat)
deriving DecidableEq

/-- flag_set: sets or clears one of the three configuration bits in the
uint8 flag byte; bit positions at or beyond FLAG_BIT_MAX are rejected. -/
def flag_set (bitPos : Nat) (shouldOn : Bool) (flags : Nat) : Nat :=
  if 3 ≤ bitPos then flags
  else if shouldOn then (flags ||| (1 <<< bitPos)) % 256
  else flags &&& (255 ^^^ (1 <<< bitPos))

/-- flag_get: tests one of the three configuration bits. -/
def flag_get (bitPos : Nat) (flags : Nat) : Bool :=
  if 3 ≤ bitPos then false
  else decide (flags &&& (1 <<< bitPos) ≠ 0)

/-- is_power_of_two from stack.c: v != 0 && (v & (v-1)) == 0. -/
def is_power_of_two (v : Nat) : Bool :=
  decide (v ≠ 0) && decide (v &&& (v - 1) = 0)

/-- valid_stack: a handle is valid when internal data exists and the three
configuration bits are all set. -/
def valid_stack : Option stack_internal_data_t → Bool
  | none => false
  | some d => flag_get 0 d.valid_flags && flag_get 1 d.valid_flags && flag_get 2 d.valid_flags

/-- stack_full: an invalid stack conservatively reports full; otherwise full
exactly when top_index >= max_element_count. -/
def stack_full (s : Option stack_internal_data_t) : Bool :=
  match s with
  | none => true
  | some d =>
    if valid_stack (some d) then decide (d.max_element_count ≤ d.top_index) else true

/-- stack_empty: an invalid stack conservatively reports empty; otherwise
empty exactly when top_index = 0. -/
def stack_empty (s : Option stack_internal_data_t) : Bool :=
  match s with
  | none => true
  | some d =>
    if valid_stack (some d) then decide (d.top_index = 0) else true

/-- The aligned element size (stride) computed inline by stack_create,
textually the same computation as in dynamic_array_create. -/
def stack_aligned_size (es align : Nat) : Nat :=
  (es + (align - es % align) % align) % U64

/-- The fully initialised internal state produced by a successful
stack_create(es, align, cnt): alignment, element and count flags set in
that order, buffer of stride * cnt bytes allocated and zeroed. -/
def stack_created (es align cnt : Nat) (junk : Nat → Nat) : stack_internal_data_t :=
  { element_size := es
    buffer_size := stack_aligned_size es align * cnt % U64
    max_element_count := cnt
    aligned_element_size := stack_aligned_size es align
    top_index := 0
    alignment_requirement := align
    valid_flags := flag_set 1 true (flag_set 0 true (flag_set 2 true 0))
    memory_pool := some (zeroFill (freshBlock junk (stack_aligned_size es align * cnt % U64)) 0
      (stack_aligned_size es align * cnt % U64)) }

/-- stack_create.  Zero and power-of-two checks come before stack_destroy
and before any allocation; the overflow check comes AFTER the internal
data has been allocated and configured, so an overflow rejection leaves
a non-Default handle with all three flags set and no buffer.  The model
assumes both core_malloc calls succeed. -/
def stack_create (es align cnt : Nat) (junk : Nat → Nat)
    (s : Option stack_internal_data_t) :
    STACK_ERROR_CODE × Option stack_internal_data_t :=
  if es = 0 ∨ align = 0 ∨ cnt = 0 then (.INVALID_ARGUMENT, s)
  else if ¬ is_power_of_two align then (.INVALID_ARGUMENT, s)
  else
    let dHalf : stack_internal_data_t :=
      { element_size := es, buffer_size := 0, max_element_count := cnt,
        aligned_element_size := stack_aligned_size es align, top_index := 0,
        alignment_requirement := align,
        valid_flags := flag_set 1 true (flag_set 0 true (flag_set 2 true 0)),
        memory_pool := none }
    if (U64 - 1) / cnt < stack_aligned_size es align then (.INVALID_ARGUMENT, some dHalf)
    else (.SUCCESS, some (stack_created es align cnt junk))

/-- stack_destroy. -/
def stack_destroy (_ : Option stack_internal_data_t) : Option stack_internal_data_t := none

/-- stack_reserve: overflow-checked, discards all content, allocates a fresh
zeroed buffer of stride * cnt bytes and resets top_index. -/
def stack_reserve (cnt : Nat) (allocOk : Bool) (junk : Nat → Nat)
    (s : Option stack_internal_data_t) : STACK_ERROR_CODE × Option stack_internal_data_t :=
  if cnt = 0 then (.INVALID_ARGUMENT, s)
  else if ¬ valid_stack s then (.INVALID_STACK, s)
  else
    match s with
    | none => (.INVALID_STACK, none)   -- unreachable: valid_stack none = false
    | some d =>
      if (U64 - 1) / cnt < d.aligned_element_size then (.INVALID_ARGUMENT, some d)
      else
        let newSize := d.aligned_element_size * cnt % U64
        if ¬ allocOk then (.MEMORY_ALLOCATE_ERROR, some d)
        else
          let newBuf := zeroFill (freshBlock junk newSize) 0 newSize
          (.SUCCESS, some { d with memory_pool := some newBuf, max_element_count := cnt,
                                   buffer_size := d.aligned_element_size * cnt % U64,
                                   top_index := 0 })

/-- stack_resize: grow-only, overflow-checked, transactional: allocate the
new buffer, copy top_index * stride bytes, swap, release; a failed
allocation leaves the stack untouched. -/
def stack_resize (cnt : Nat) (allocOk : Bool) (junk : Nat → Nat)
    (s : Option stack_internal_data_t) : STACK_ERROR_CODE × Option stack_internal_data_t :=
  if cnt = 0 then (.INVALID_ARGUMENT, s)
  else if ¬ valid_stack s then (.INVALID_STACK, s)
  else
    match s with
    | none => (.INVALID_STACK, none)   -- unreachable: valid_stack none = false
    | some d =>
      if cnt ≤ d.max_element_count then (.INVALID_ARGUMENT, some d)
      else if (U64 - 1) / cnt < d.aligned_element_size then (.INVALID_ARGUMENT, some d)
      else
        let newSize := d.aligned_element_size * cnt % U64
        if ¬ allocOk then (.MEMORY_ALLOCATE_ERROR, some d)
        else
          let newBuf0 := zeroFill (freshBlock junk newSize) 0 newSize
          let newBuf := writeBytes newBuf0 0
            (readBytes (d.memory_pool.getD []) 0 (d.aligned_element_size * d.top_index % U64))
          (.SUCCESS, some { d with memory_pool := some newBuf, max_element_count := cnt,
                                   buffer_size := newSize })

/-- stack_push: zeroes the destination slot (stride bytes, count truncated
to uint32 by core_zero_memory), copies element_size bytes of data into
it, increments top_index. -/
def stack_push (s : Option stack_internal_data_t) (data : List Nat) :
    STACK_ERROR_CODE × Option stack_internal_data_t :=
  if ¬ valid_stack s then (.INVALID_STACK, s)
  else if stack_full s then (.STACK_FULL, s)
  else
    match s with
    | none => (.INVALID_STACK, none)   -- unreachable: valid_stack none = false
    | some d =>
      let off := d.top_index * d.aligned_element_size % U64
      let pool1 := zeroFill (d.memory_pool.getD []) off d.aligned_element_size
      let pool2 := writeBytes pool1 off (readBytes data 0 d.element_size)
      (.SUCCESS, some { d with memory_pool := some pool2, top_index := d.top_index + 1 })

/-- stack_pop: copies element_size bytes from slot top_index - 1 into the
out buffer (returned here as the third component), decrements top_index. -/
def stack_pop (s : Option stack_internal_data_t) :
    STACK_ERROR_CODE × Option stack_internal_data_t × Option (List Nat) :=
  if ¬ valid_stack s then (.INVALID_STACK, s, none)
  else if stack_empty s then (.STACK_EMPTY, s, none)
  else
    match s with
    | none => (.INVALID_STACK, none, none)   -- unreachable: valid_stack none = false
    | some d =>
      let out := readBytes (d.memory_pool.getD [])
        ((d.top_index - 1) * d.aligned_element_size % U64) d.element_size
      (.SUCCESS, some { d with top_index := d.top_index - 1 }, some out)

/-- stack_capacity: reports max_element_count through the out parameter. -/
def stack_capacity :
    Option stack_internal_data_t → STACK_ERROR_CODE × Option Nat
  | none => (.INVALID_STACK, none)
  | some d =>
    if valid_stack (some d) then (.SUCCESS, some d.max_element_count)
    else (.INVALID_STACK, none)

/-- Iterated stack_push over a list of items, collecting the return codes. -/
def stack_push_all (s : Option stack_internal_data_t) :
    List (List Nat) → List STACK_ERROR_CODE × Option stack_internal_data_t
  | [] => ([], s)
  | it :: rest =>
    let r := stack_push s it
    let rr := stack_push_all r.2 rest
    (r.1 :: rr.1, rr.2)

/-- Iterated stack_pop, collecting the popped bytes (none when a pop fails). -/
def stack_pop_n : Nat → Option stack_internal_data_t →
    List (Option (List Nat)) × Option stack_internal_data_t
  | 0, s => ([], s)
  | n + 1, s =>
    let r := stack_pop s
    let rr := stack_pop_n n r.2.1
    (r.2.2 :: rr.1, rr.2)

/-- Well-formedness of a Ready stack state: the invariants of the data
model (configuration flags set, stride at least element_size, count at
most capacity, buffer of exactly stride * capacity bytes, byte size
below 2^64), all established by stack_create and preserved by every
operation. -/
def StackWF (d : stack_internal_data_t) : Prop :=
  valid_stack (some d) = true ∧
  d.element_size ≤ d.aligned_element_size ∧
  d.top_index ≤ d.max_element_count ∧
  d.buffer_size = d.aligned_element_size * d.max_element_count ∧
  d.aligned_element_size * d.max_element_count < U64 ∧
  (d.memory_pool.getD []).length = d.buffer_size

/-! Concrete runs used by the counterexample and code-bug theorems. -/

/-- Zero junk: every freshly allocated byte reads 0. -/
def junk0 : Nat → Nat := fun _ => 0

/-- A Ready dynamic array created with element size 1, alignment 1 and
capacity 2 (all allocations succeeding). -/
def c1_array : Option dynamic_array_internal_data_t :=
  (dynamic_array_create 1 1 2 true junk0 none).2

/-- The c1 array after pushing the single-byte elements 10 and 20. -/
def c2_array : Option dynamic_array_internal_data_t :=
  (dynamic_array_element_push [20]
    (dynamic_array_element_push [10] c1_array).2).2

/-- A Ready dynamic array with capacity 1 holding the single byte 7. -/
def c3_array : Option dynamic_array_internal_data_t :=
  (dynamic_array_element_push [7]
    (dynamic_array_create 1 1 1 true junk0 none).2).2

/-- A Ready dynamic array with capacity 2 holding one element. -/
def c4_array : Option dynamic_array_internal_data_t :=
  (dynamic_array_element_push [5] c1_array).2

/-- A slot count whose byte size wraps modulo 2^64 at stride 2. -/
def c5_big : Nat := 2 ^ 63 + 1

/-- The internal state produced by dynamic_array_create with capacity 0:
fields configured, no buffer, everything else zero. -/
def darray_created0 (es align : Nat) : dynamic_array_internal_data_t :=
  { element_size := es, element_count := 0, buffer_capacity := 0,
    max_element_count := 0, aligned_element_size := darray_aligned_size es align,
    alignment_requirement := align, memory_pool := none }

/-- A concrete well-formed Ready stack: element size 1, alignment 1,
capacity 2, empty, zeroed 2-byte buffer. -/
def c8_stack : stack_internal_data_t :=
  { element_size := 1, buffer_size := 2, max_element_count := 2,
    aligned_element_size := 1, top_index := 0, alignment_requirement := 1,
    valid_flags := 7, memory_pool := some [0, 0] }

/-- The payload state of c2_array: capacity 2, holding bytes 10 and 20. -/
def c2_d : dynamic_array_internal_data_t :=
  { element_size := 1, element_count := 2, buffer_capacity := 2, max_element_count := 2,
    aligned_element_size := 1, alignment_requirement := 1, memory_pool := some [10, 20] }

/-- The state dynamic_array_resize(5) actually produces from c2_array: the
elements survive but the buffer is still 2 bytes, only max_element_count
was raised to 5. -/
def c2_resized : dynamic_array_internal_data_t :=
  { element_size := 1, element_count := 2, buffer_capacity := 2, max_element_count := 5,
    aligned_element_size := 1, alignment_requirement := 1, memory_pool := some [10, 20] }

/-- The payload state of c3_array: capacity 1, holding the byte 7. -/
def c3_d : dynamic_array_internal_data_t :=
  { element_size := 1, element_count := 1, buffer_capacity := 1, max_element_count := 1,
    aligned_element_size := 1, alignment_requirement := 1, memory_pool := some [7] }

/-- What is left of c3_array after a resize whose reallocation failed: the
element is gone and there is no buffer. -/
def c3_failed : dynamic_array_internal_data_t :=
  { element_size := 1, element_count := 0, buffer_capacity := 0, max_element_count := 1,
    aligned_element_size := 1, alignment_requirement := 1, memory_pool := none }

/-- A well-formed Ready stack with stride 2 (element size 2, alignment 2,
capacity 2), used to exercise the overflow guards. -/
def dW2 : stack_internal_data_t :=
  { element_size := 2, buffer_size := 4, max_element_count := 2,
    aligned_element_size := 2, top_index := 0, alignment_requirement := 2,
    valid_flags := 7, memory_pool := some [0, 0, 0, 0] }

/-- The state dynamic_array_create actually produces for element size 2,
alignment 1 and the wrapping count c5_big: the byte size 2 * c5_big
wrapped to 2, so the buffer holds one slot. -/
def c5_wrapped : dynamic_array_internal_data_t :=
  { element_size := 2, element_count := 0, buffer_capacity := 2, max_element_count := c5_big,
    aligned_element_size := 2, alignment_requirement := 1, memory_pool := some [0, 0] }

/-- The state dynamic_array_create(4, 3, 10) produces: alignment 3 is not a
power of two yet the call succeeds, with stride 6 and a 60-byte buffer. -/
def c6_state : dynamic_array_internal_data_t :=
  { element_size := 4, element_count := 0, buffer_capacity := 60, max_element_count := 10,
    aligned_element_size := 6, alignment_requirement := 3,
    memory_pool := some (List.replicate 60 0) }

/-! ## Byte-buffer lemmas -/

theorem length_writeBytes (bs l : List Nat) (off : Nat) :
    (writeBytes l off bs).length = l.length := by
  induction bs generalizing l off with
  | nil => rfl
  | cons b bs ih => simp [writeBytes, ih]

theorem getD_set (l : List Nat) (j i b : Nat) :
    (l.set j b).getD i 0 = if i = j ∧ j < l.length then b else l.getD i 0 := by
  induction l generalizing i j with
  | nil => simp
  | cons a t ih =>
    cases j with
    | zero =>
      cases i with
      | zero => simp
      | succ i => simp
    | succ j =>
      cases i with
      | zero => simp
      | succ i =>
        simp only [List.set, List.getD_cons_succ, ih, List.length_cons]
        by_cases h : i = j ∧ j < t.length
        · rw [if_pos h, if_pos (by omega)]
        · rw [if_neg h, if_neg (by omega)]

theorem getD_lt {A : Type} (l : List A) (i : Nat) (d : A) (h : i < l.length) :
    l.getD i d = l[i] := by
  induction l generalizing i with
  | nil => simp at h
  | cons a t ih =>
    cases i with
    | zero => rfl
    | succ i => simp only [List.getD_cons_succ, List.getElem_cons_succ]; exact ih i (by simpa using h)

theorem writeBytes_getD (bs l : List Nat) (off i : Nat) :
    (writeBytes l off bs).getD i 0 =
      if off ≤ i ∧ i < off + bs.length ∧ i < l.length then bs.getD (i - off) 0
      else l.getD i 0 := by
  induction bs generalizing l off with
  | nil =>
    simp only [writeBytes, List.length_nil, Nat.add_zero]
    rw [if_neg (by omega)]
  | cons b bs ih =>
    simp only [writeBytes, ih, List.length_set, List.length_cons]
    by_cases h1 : off + 1 ≤ i ∧ i < off + 1 + bs.length ∧ i < l.length
    · rw [if_pos h1, if_pos (by omega)]
      have hi : i - off = (i - (off + 1)) + 1 := by omega
      rw [hi, List.getD_cons_succ]
    · rw [if_neg h1, getD_set]
      by_cases h2 : i = off ∧ off < l.length
      · rw [if_pos h2, if_pos (by omega)]
        have : i - off = 0 := by omega
        rw [this, List.getD_cons_zero]
      · rw [if_neg h2, if_neg (by omega)]

theorem length_readBytes (l : List Nat) (off n : Nat) : (readBytes l off n).length = n := by
  simp [readBytes]

theorem readBytes_self (l : List Nat) (n : Nat) (h : l.length = n) : readBytes l 0 n = l := by
  apply List.ext_getElem (by simp [readBytes, h])
  intro i h1 h2
  simp only [readBytes, List.getElem_map, List.getElem_range, Nat.zero_add]
  exact getD_lt l i 0 h2

theorem readBytes_congr (l l2 : List Nat) (off off2 n : Nat)
    (h : ∀ k, k < n → l.getD (off + k) 0 = l2.getD (off2 + k) 0) :
    readBytes l off n = readBytes l2 off2 n := by
  apply List.ext_getElem (by simp [readBytes])
  intro i h1 h2
  simp only [readBytes, List.getElem_map, List.getElem_range]
  exact h i (by simpa [readBytes] using h1)

theorem readBytes_writeBytes_self (bs l : List Nat) (off : Nat)
    (h : off + bs.length ≤ l.length) :
    readBytes (writeBytes l off bs) off bs.length = bs := by
  apply List.ext_getElem (by simp [readBytes])
  intro i h1 h2
  simp only [readBytes, List.getElem_map, List.getElem_range]
  rw [writeBytes_getD, if_pos (by constructor; omega; constructor; omega; omega)]
  have : off + i - off = i := by omega
  rw [this]
  exact getD_lt bs i 0 h2

theorem getD_writeBytes_lt (bs l : List Nat) (off i : Nat) (h : i < off) :
    (writeBytes l off bs).getD i 0 = l.getD i 0 := by
  rw [writeBytes_getD, if_neg (by omega)]

theorem range_map_getD_reverse (l : List (List Nat)) :
    (List.range l.length).map (fun i => l.getD (l.length - 1 - i) []) = l.reverse := by
  apply List.ext_getElem (by simp)
  intro i h1 h2
  simp only [List.getElem_map, List.getElem_range, List.getElem_reverse]
  have hi : i < l.length := by simpa using h1
  exact getD_lt l (l.length - 1 - i) [] (by omega)



theorem length_freshBlock (junk : Nat → Nat) (n : Nat) : (freshBlock junk n).length = n := by
  simp [freshBlock]

theorem length_zeroFill (l : List Nat) (off n : Nat) : (zeroFill l off n).length = l.length :=
  length_writeBytes ..

theorem U64_pos : 0 < U64 := by decide

/-- A successful stack_push in explicit form. -/
theorem stack_push_eq (d : stack_internal_data_t) (data : List Nat)
    (hv : valid_stack (some d) = true) (hlt : d.top_index < d.max_element_count) :
    stack_push (some d) data = (.SUCCESS, some { d with
      memory_pool := some (writeBytes
        (zeroFill (d.memory_pool.getD []) (d.top_index * d.aligned_element_size % U64)
          d.aligned_element_size)
        (d.top_index * d.aligned_element_size % U64) (readBytes data 0 d.element_size)),
      top_index := d.top_index + 1 }) := by
  have hfull : stack_full (some d) = false := by
    simp only [stack_full, hv, if_true, decide_eq_false_iff_not]
    omega
  simp [stack_push, hv, hfull]

/-- A successful stack_pop in explicit form. -/
theorem stack_pop_eq (d : stack_internal_data_t)
    (hv : valid_stack (some d) = true) (hpos : 0 < d.top_index) :
    stack_pop (some d) = (.SUCCESS, some { d with top_index := d.top_index - 1 },
      some (readBytes (d.memory_pool.getD [])
        ((d.top_index - 1) * d.aligned_element_size % U64) d.element_size)) := by
  have hemp : stack_empty (some d) = false := by
    simp only [stack_empty, hv, if_true, decide_eq_false_iff_not]
    omega
  simp [stack_pop, hv, hemp]


/-- Pushing a list of items onto a well-formed stack with enough room: every
push returns SUCCESS, the well-formedness and all configuration fields
are preserved, top_index advances by the number of items, the bytes
below the original top are untouched, and slot top_index + k holds the
first element_size bytes of item k. -/
theorem stack_push_all_spec (items : List (List Nat)) (d : stack_internal_data_t)
    (hwf : StackWF d) (hcap : d.top_index + items.length ≤ d.max_element_count) :
    ∃ d2,
      stack_push_all (some d) items = (List.replicate items.length .SUCCESS, some d2) ∧
      StackWF d2 ∧
      d2.top_index = d.top_index + items.length ∧
      d2.element_size = d.element_size ∧
      d2.aligned_element_size = d.aligned_element_size ∧
      d2.max_element_count = d.max_element_count ∧
      d2.buffer_size = d.buffer_size ∧
      d2.valid_flags = d.valid_flags ∧
      (∀ i, i < d.top_index * d.aligned_element_size →
        (d2.memory_pool.getD []).getD i 0 = (d.memory_pool.getD []).getD i 0) ∧
      (∀ k, k < items.length →
        readBytes (d2.memory_pool.getD []) ((d.top_index + k) * d.aligned_element_size)
          d.element_size = readBytes (items.getD k []) 0 d.element_size) := by
  induction items generalizing d with
  | nil =>
    exact ⟨d, rfl, hwf, by simp, rfl, rfl, rfl, rfl, rfl, fun i _ => rfl,
      fun k hk => by simp at hk⟩
  | cons it rest ih =>
    obtain ⟨hv, hesA, htm, hbs, hU, hplen⟩ := hwf
    have hlt : d.top_index < d.max_element_count := by
      simp only [List.length_cons] at hcap; omega
    have hmulmax : d.max_element_count * d.aligned_element_size < U64 := by
      calc d.max_element_count * d.aligned_element_size
          = d.aligned_element_size * d.max_element_count := Nat.mul_comm ..
        _ < U64 := hU
    have hoff : d.top_index * d.aligned_element_size % U64
        = d.top_index * d.aligned_element_size := by
      apply Nat.mod_eq_of_lt
      calc d.top_index * d.aligned_element_size
          ≤ d.max_element_count * d.aligned_element_size :=
            Nat.mul_le_mul_right _ (Nat.le_of_lt hlt)
        _ < U64 := hmulmax
    have hpush := stack_push_eq d it hv hlt
    set p : List Nat := d.memory_pool.getD [] with hp
    set off : Nat := d.top_index * d.aligned_element_size with hoffdef
    set pool2 : List Nat := writeBytes (zeroFill p (off % U64) d.aligned_element_size)
      (off % U64) (readBytes it 0 d.element_size) with hpool2
    set d1 : stack_internal_data_t :=
      { d with memory_pool := some pool2, top_index := d.top_index + 1 } with hd1
    have hlen2 : pool2.length = p.length := by
      rw [hpool2]
      rw [length_writeBytes, length_zeroFill]
    have hwf1 : StackWF d1 := by
      refine ⟨hv, hesA, ?_, hbs, hU, ?_⟩
      · exact hlt
      · show pool2.length = d.buffer_size
        rw [hlen2]; exact hplen
    have hcap1 : d1.top_index + rest.length ≤ d1.max_element_count := by
      show d.top_index + 1 + rest.length ≤ d.max_element_count
      simp only [List.length_cons] at hcap; omega
    obtain ⟨d2, heq, hwf2, htop2, hes2, hA2, hmax2, hbuf2, hfl2, hlow2, hslot2⟩ := ih d1 hwf1 hcap1
    refine ⟨d2, ?_, hwf2, ?_, hes2, hA2, hmax2, hbuf2, hfl2, ?_, ?_⟩
    · show stack_push_all (some d) (it :: rest) = _
      simp only [stack_push_all, hpush, heq, List.length_cons, List.replicate_succ]
    · show d2.top_index = d.top_index + (rest.length + 1)
      rw [htop2]
      show d.top_index + 1 + rest.length = _
      omega
    · -- bytes below the original top are untouched
      intro i hi
      have hi1 : i < d1.top_index * d1.aligned_element_size := by
        show i < (d.top_index + 1) * d.aligned_element_size
        calc i < d.top_index * d.aligned_element_size := hi
          _ ≤ (d.top_index + 1) * d.aligned_element_size :=
            Nat.mul_le_mul_right _ (Nat.le_succ _)
      rw [hlow2 i hi1]
      show pool2.getD i 0 = p.getD i 0
      rw [hpool2, zeroFill]
      rw [getD_writeBytes_lt _ _ _ _ (by omega : i < off % U64),
        getD_writeBytes_lt _ _ _ _ (by omega : i < off % U64)]
    · -- slot contents
      intro k hk
      match k with
      | 0 =>
        have hfits : off + d.element_size ≤ pool2.length := by
          rw [hlen2, hplen, hbs]
          calc off + d.element_size ≤ off + d.aligned_element_size := by omega
            _ = (d.top_index + 1) * d.aligned_element_size := by
                rw [hoffdef, Nat.succ_mul]
            _ ≤ d.max_element_count * d.aligned_element_size :=
                Nat.mul_le_mul_right _ hlt
            _ = d.aligned_element_size * d.max_element_count := Nat.mul_comm ..
        have hmid : readBytes (d2.memory_pool.getD []) (off + 0) d.element_size
            = readBytes pool2 (off + 0) d.element_size := by
          apply readBytes_congr
          intro j hj
          apply hlow2
          show off + 0 + j < (d.top_index + 1) * d.aligned_element_size
          have : off + 0 + j < off + d.aligned_element_size := by omega
          calc off + 0 + j < off + d.aligned_element_size := this
            _ = (d.top_index + 1) * d.aligned_element_size := by
                rw [hoffdef, Nat.succ_mul]
        show readBytes (d2.memory_pool.getD []) ((d.top_index + 0) * d.aligned_element_size)
            d.element_size = readBytes ((it :: rest).getD 0 []) 0 d.element_size
        have hidx : (d.top_index + 0) * d.aligned_element_size = off + 0 := by
          simp [hoffdef]
        rw [hidx, hmid, hpool2]
        have := readBytes_writeBytes_self (readBytes it 0 d.element_size)
          (zeroFill p (off % U64) d.aligned_element_size) (off % U64)
          (by rw [length_readBytes, length_zeroFill, hoff]
              calc off + d.element_size ≤ pool2.length := hfits
                _ = p.length := hlen2)
        rw [length_readBytes] at this
        have hoffz : off + 0 = off % U64 := by rw [hoff]; omega
        rw [hoffz, this, List.getD_cons_zero]
      | k + 1 =>
        have hk1 : k < rest.length := by simp only [List.length_cons] at hk; omega
        have := hslot2 k hk1
        have hidx : d1.top_index + k = d.top_index + (k + 1) := by
          show d.top_index + 1 + k = _
          omega
        rw [hidx] at this
        show readBytes (d2.memory_pool.getD [])
            ((d.top_index + (k + 1)) * d.aligned_element_size) d.element_size
          = readBytes ((it :: rest).getD (k + 1) []) 0 d.element_size
        rw [List.getD_cons_succ]
        exact this


/-- Popping m times from a well-formed stack holding at least m elements:
the pops return the element_size-byte reads of slots top_index - 1,
top_index - 2, ..., and only top_index changes. -/
theorem stack_pop_n_spec (m : Nat) (d : stack_internal_data_t)
    (hwf : StackWF d) (hm : m ≤ d.top_index) :
    stack_pop_n m (some d) =
      ((List.range m).map (fun i => some (readBytes (d.memory_pool.getD [])
          ((d.top_index - 1 - i) * d.aligned_element_size % U64) d.element_size)),
       some { d with top_index := d.top_index - m }) := by
  induction m generalizing d with
  | zero =>
    simp [stack_pop_n]
  | succ m ih =>
    obtain ⟨hv, hesA, htm, hbs, hU, hplen⟩ := hwf
    have hpos : 0 < d.top_index := by omega
    have hpop := stack_pop_eq d hv hpos
    set d1 : stack_internal_data_t := { d with top_index := d.top_index - 1 } with hd1
    have hwf1 : StackWF d1 :=
      ⟨hv, hesA, by show d.top_index - 1 ≤ d.max_element_count; omega, hbs, hU, hplen⟩
    have hrec := ih d1 hwf1 (by show m ≤ d.top_index - 1; omega)
    simp only [stack_pop_n, hpop, hrec, Prod.mk.injEq]
    refine ⟨?_, ?_⟩
    · rw [List.range_succ_eq_map, List.map_cons, List.map_map]
      congr 1
      apply List.map_congr_left
      intro i hi
      show some (readBytes (d.memory_pool.getD [])
          ((d.top_index - 1 - 1 - i) * d.aligned_element_size % U64) d.element_size) = _
      have harith : d.top_index - 1 - 1 - i = d.top_index - 1 - (i + 1) := by omega
      rw [harith]
      rfl
    · show some { d1 with top_index := d1.top_index - m } = _
      have harith : d.top_index - 1 - m = d.top_index - (m + 1) := by omega
      show some { d with top_index := d.top_index - 1 - m } = _
      rw [harith]

/-- A successful stack_create in explicit form. -/
theorem stack_create_eq (es align cnt : Nat) (junk : Nat → Nat)
    (s : Option stack_internal_data_t)
    (hes : es ≠ 0) (hal : align ≠ 0) (hcnt : cnt ≠ 0)
    (hp2 : is_power_of_two align = true)
    (hdiv : stack_aligned_size es align ≤ (U64 - 1) / cnt) :
    stack_create es align cnt junk s = (.SUCCESS, some (stack_created es align cnt junk)) := by
  simp only [stack_create]
  rw [if_neg (by simp [hes, hal, hcnt]), if_neg (by simp [hp2]), if_neg (by omega)]

/-- The state built by a successful stack_create is well formed, provided the
stride addition did not wrap. -/
theorem stack_created_wf (es align cnt : Nat) (junk : Nat → Nat)
    (hcnt : cnt ≠ 0)
    (hno : es + (align - es % align) % align < U64)
    (hdiv : stack_aligned_size es align ≤ (U64 - 1) / cnt) :
    StackWF (stack_created es align cnt junk) := by
  have hAeq : stack_aligned_size es align = es + (align - es % align) % align := by
    exact Nat.mod_eq_of_lt hno
  have hmul : stack_aligned_size es align * cnt < U64 := by
    have h1 := (Nat.le_div_iff_mul_le (Nat.pos_of_ne_zero hcnt)).mp hdiv
    have h2 := U64_pos
    omega
  refine ⟨by simp [valid_stack, stack_created, flag_get, flag_set], ?_, Nat.zero_le _, ?_, ?_, ?_⟩
  · show es ≤ stack_aligned_size es align
    rw [hAeq]
    exact Nat.le_add_right ..
  · show stack_aligned_size es align * cnt % U64 = stack_aligned_size es align * cnt
    exact Nat.mod_eq_of_lt hmul
  · show stack_aligned_size es align * cnt < U64
    exact hmul
  · show (zeroFill (freshBlock junk (stack_aligned_size es align * cnt % U64)) 0
        (stack_aligned_size es align * cnt % U64)).length
      = stack_aligned_size es align * cnt % U64
    rw [length_zeroFill, length_freshBlock]


/-! ## Claim theorems -/

/-- Claim C1 (code bug, evaluated at the failing input).  For the Ready
dynamic array c1_array (element size 1, stride 1, capacity 2), the call
dynamic_array_reserve(3) returns Success but allocates stride times the
STORED max_element_count (2 bytes, the state is reproduced unchanged)
instead of stride times the requested 3, and dynamic_array_capacity
afterwards still reports 2, not 3: reserve ignores its requested
capacity argument, contradicting its own header documentation. -/
theorem C1_reserve_ignores_requested_capacity :
    c1_array = some { element_size := 1, element_count := 0, buffer_capacity := 2,
                      max_element_count := 2, aligned_element_size := 1,
                      alignment_requirement := 1, memory_pool := some [0, 0] } ∧
    dynamic_array_reserve 3 true junk0 c1_array = some (.SUCCESS, c1_array) ∧
    dynamic_array_capacity c1_array = (.SUCCESS, some 2) ∧
    (2 : Nat) ≠ 3 := by decide

/-- Claim C2 (code bug, evaluated at the failing input).  The Ready dynamic
array c2_array holds two one-byte elements 10, 20 in a capacity-2
buffer.  dynamic_array_resize(5) returns Success and both elements
survive in order, but the backing buffer is still 2 bytes (reserve
sized it from the stored max_element_count), so
dynamic_array_capacity afterwards reports 2, not the requested 5. -/
theorem C2_resize_does_not_grow_buffer :
    dynamic_array_size c2_array = (.SUCCESS, some 2) ∧
    dynamic_array_element_ref 0 c2_array = (.SUCCESS, some [10]) ∧
    dynamic_array_element_ref 1 c2_array = (.SUCCESS, some [20]) ∧
    dynamic_array_resize 5 true true junk0 junk0 c2_array = some (.SUCCESS, some c2_resized) ∧
    dynamic_array_element_ref 0 (some c2_resized) = (.SUCCESS, some [10]) ∧
    dynamic_array_element_ref 1 (some c2_resized) = (.SUCCESS, some [20]) ∧
    dynamic_array_capacity (some c2_resized) = (.SUCCESS, some 2) ∧
    (2 : Nat) ≠ 5 := by decide

/-- Claim C3 counterexample.  The Ready dynamic array c3_array holds one
element (the byte 7).  When the reallocation inside
dynamic_array_resize fails (first allocation succeeds, second fails),
the call returns MEMORY_ALLOCATE_ERROR but the array is NOT left as it
was: the old buffer was already released, so element_count drops from 1
to 0 and the buffer is gone — not the claimed absence of partial
mutation. -/
theorem C3_counterexample :
    dynamic_array_size c3_array = (.SUCCESS, some 1) ∧
    dynamic_array_resize 5 true false junk0 junk0 c3_array
      = some (.MEMORY_ALLOCATE_ERROR, some c3_failed) ∧
    dynamic_array_size (some c3_failed) = (.SUCCESS, some 0) ∧
    c3_array ≠ some c3_failed := by decide

/-- Claim C3, amended.  Allocation failure inside resize is transactional
for the stack (the stack is returned exactly unchanged), and for the
dynamic array only when the FIRST allocation (the temporary swap
buffer) fails; when the reallocation performed through
dynamic_array_reserve fails after the old buffer has been released, the
call returns AllocationFailure but leaves the array emptied:
element_count and buffer_capacity are 0 and the buffer is gone. -/
theorem C3_alloc_failure_partially_transactional :
    (∀ (cnt : Nat) (junk : Nat → Nat) (d : stack_internal_data_t),
      valid_stack (some d) = true →
      d.max_element_count < cnt →
      d.aligned_element_size ≤ (U64 - 1) / cnt →
      stack_resize cnt false junk (some d) = (.MEMORY_ALLOCATE_ERROR, some d)) ∧
    (∀ (cnt : Nat) (o2 : Bool) (junk1 junk2 : Nat → Nat) (d : dynamic_array_internal_data_t),
      cnt ≠ 0 →
      d.element_count ≤ cnt →
      dynamic_array_resize cnt false o2 junk1 junk2 (some d)
        = some (.MEMORY_ALLOCATE_ERROR, some d)) ∧
    (∀ (cnt : Nat) (junk1 junk2 : Nat → Nat) (d : dynamic_array_internal_data_t),
      cnt ≠ 0 →
      d.element_count ≤ cnt →
      dynamic_array_resize cnt true false junk1 junk2 (some d)
        = some (.MEMORY_ALLOCATE_ERROR,
            some { d with memory_pool := (none : Option (List Nat)),
                          buffer_capacity := 0, element_count := 0 })) := by
  refine ⟨?_, ?_, ?_⟩
  · intro cnt junk d hv hgt hdiv
    have hcnt : ¬ (cnt = 0) := by omega
    have h1 : ¬ (cnt ≤ d.max_element_count) := by omega
    have h2 : ¬ ((U64 - 1) / cnt < d.aligned_element_size) := by omega
    simp [stack_resize, hcnt, hv, h1, h2]
  · intro cnt o2 junk1 junk2 d hcnt hle
    have h1 : ¬ (cnt < d.element_count) := by omega
    simp [dynamic_array_resize, hcnt, h1]
  · intro cnt junk1 junk2 d hcnt hle
    have h1 : ¬ (cnt < d.element_count) := by omega
    simp [dynamic_array_resize, dynamic_array_reserve, hcnt, h1]

/-- Claim C3 witness. -/
theorem C3_alloc_failure_witness :
    stack_resize 3 false junk0 (some c8_stack) = (.MEMORY_ALLOCATE_ERROR, some c8_stack) ∧
    dynamic_array_resize 5 false true junk0 junk0 (some c3_d)
      = some (.MEMORY_ALLOCATE_ERROR, some c3_d) ∧
    dynamic_array_resize 5 true false junk0 junk0 (some c3_d)
      = some (.MEMORY_ALLOCATE_ERROR,
          some { c3_d with memory_pool := (none : Option (List Nat)),
                           buffer_capacity := 0, element_count := 0 }) :=
  ⟨C3_alloc_failure_partially_transactional.1 3 junk0 c8_stack (by decide) (by decide) (by decide),
   C3_alloc_failure_partially_transactional.2.1 5 true junk0 junk0 c3_d (by decide) (by decide),
   C3_alloc_failure_partially_transactional.2.2 5 junk0 junk0 c3_d (by decide) (by decide)⟩

/-- Claim C4 counterexample.  The Ready dynamic array c4_array holds k = 1
element, yet dynamic_array_resize(0) returns Success (an explicit
warn-and-do-nothing branch), not the claimed InvalidArgument. -/
theorem C4_counterexample :
    dynamic_array_size c4_array = (.SUCCESS, some 1) ∧
    dynamic_array_resize 0 true true junk0 junk0 c4_array = some (.SUCCESS, c4_array) ∧
    DYNAMIC_ARRAY_ERROR_CODE.SUCCESS ≠ .INVALID_ARGUMENT := by decide

/-- Claim C4, amended.  stack_resize with a capacity not strictly greater
than the current one returns InvalidArgument and leaves the stack
unchanged.  dynamic_array_resize with a NONZERO capacity below the
current element count returns InvalidArgument and leaves the array
unchanged; capacity 0, however, is treated as a successful no-op (the
array is returned unchanged with Success, not InvalidArgument). -/
theorem C4_resize_shrink_rejected :
    (∀ (cnt : Nat) (ok : Bool) (junk : Nat → Nat) (d : stack_internal_data_t),
      valid_stack (some d) = true → cnt ≤ d.max_element_count →
      stack_resize cnt ok junk (some d) = (.INVALID_ARGUMENT, some d)) ∧
    (∀ (cnt : Nat) (o1 o2 : Bool) (j1 j2 : Nat → Nat) (d : dynamic_array_internal_data_t),
      cnt ≠ 0 → cnt < d.element_count →
      dynamic_array_resize cnt o1 o2 j1 j2 (some d) = some (.INVALID_ARGUMENT, some d)) ∧
    (∀ (o1 o2 : Bool) (j1 j2 : Nat → Nat) (da : Option dynamic_array_internal_data_t),
      dynamic_array_resize 0 o1 o2 j1 j2 da = some (.SUCCESS, da)) := by
  refine ⟨?_, ?_, ?_⟩
  · intro cnt ok junk d hv hle
    by_cases hcnt : cnt = 0
    · simp [stack_resize, hcnt]
    · simp [stack_resize, hcnt, hv, hle]
  · intro cnt o1 o2 j1 j2 d hcnt hlt
    simp [dynamic_array_resize, hcnt, hlt]
  · intro o1 o2 j1 j2 da
    simp [dynamic_array_resize]

/-- Claim C4 witness. -/
theorem C4_resize_shrink_witness :
    stack_resize 1 true junk0 (some c8_stack) = (.INVALID_ARGUMENT, some c8_stack) ∧
    dynamic_array_resize 1 true true junk0 junk0 (some c2_d)
      = some (.INVALID_ARGUMENT, some c2_d) ∧
    dynamic_array_resize 0 true true junk0 junk0 (some c2_d) = some (.SUCCESS, some c2_d) :=
  ⟨C4_resize_shrink_rejected.1 1 true junk0 c8_stack (by decide) (by decide),
   C4_resize_shrink_rejected.2.1 1 true true junk0 junk0 c2_d (by decide) (by decide),
   C4_resize_shrink_rejected.2.2 true true junk0 junk0 (some c2_d)⟩

/-- Claim C5 counterexample.  dynamic_array_create with element size 2,
alignment 1 and the wrapping count c5_big = 2^63 + 1 (stride 2 exceeds
UINT64_MAX / c5_big = 1) returns Success, not the claimed
InvalidArgument: the byte-size product wraps modulo 2^64 to 2, leaving
a one-slot buffer for a claimed capacity of 2^63 + 1. -/
theorem C5_counterexample :
    (U64 - 1) / c5_big < 2 ∧
    dynamic_array_create 2 1 c5_big true junk0 none = (.SUCCESS, some c5_wrapped) ∧
    dynamic_array_capacity (some c5_wrapped) = (.SUCCESS, some 1) ∧
    DYNAMIC_ARRAY_ERROR_CODE.SUCCESS ≠ .INVALID_ARGUMENT := by decide

/-- Claim C5, amended.  In the STACK, before the buffer allocation in
create, reserve and resize, the implementation checks
aligned_element_size <= UINT64_MAX / count and returns InvalidArgument
on violation before allocating.  The DYNAMIC ARRAY performs no such
check anywhere: for every nonzero count its reserve simply allocates
(stored max_element_count * stride) mod 2^64 bytes and reports
Success. -/
theorem C5_overflow_checks_stack_only :
    (∀ (cnt : Nat) (ok : Bool) (junk : Nat → Nat) (d : stack_internal_data_t),
      valid_stack (some d) = true → cnt ≠ 0 →
      (U64 - 1) / cnt < d.aligned_element_size →
      stack_reserve cnt ok junk (some d) = (.INVALID_ARGUMENT, some d)) ∧
    (∀ (cnt : Nat) (ok : Bool) (junk : Nat → Nat) (d : stack_internal_data_t),
      valid_stack (some d) = true → d.max_element_count < cnt →
      (U64 - 1) / cnt < d.aligned_element_size →
      stack_resize cnt ok junk (some d) = (.INVALID_ARGUMENT, some d)) ∧
    (∀ (es align cnt : Nat) (junk : Nat → Nat) (s : Option stack_internal_data_t),
      es ≠ 0 → align ≠ 0 → cnt ≠ 0 → is_power_of_two align = true →
      (U64 - 1) / cnt < stack_aligned_size es align →
      (stack_create es align cnt junk s).1 = .INVALID_ARGUMENT) ∧
    (∀ (cnt : Nat) (junk : Nat → Nat) (d : dynamic_array_internal_data_t),
      cnt ≠ 0 →
      dynamic_array_reserve cnt true junk (some d)
        = some (.SUCCESS, some { d with
            memory_pool := some (zeroFill (freshBlock junk
              (d.max_element_count * d.aligned_element_size % U64)) 0
              (d.max_element_count * d.aligned_element_size % U64)),
            buffer_capacity := d.max_element_count * d.aligned_element_size % U64,
            element_count := 0 })) := by
  refine ⟨?_, ?_, ?_, ?_⟩
  · intro cnt ok junk d hv hcnt hdiv
    simp [stack_reserve, hcnt, hv, hdiv]
  · intro cnt ok junk d hv hgt hdiv
    have hcnt : ¬ (cnt = 0) := by omega
    have h1 : ¬ (cnt ≤ d.max_element_count) := by omega
    simp [stack_resize, hcnt, hv, h1, hdiv]
  · intro es align cnt junk s hes hal hcnt hp2 hdiv
    simp only [stack_create]
    rw [if_neg (by simp [hes, hal, hcnt]), if_neg (by simp [hp2]), if_pos hdiv]
  · intro cnt junk d hcnt
    simp [dynamic_array_reserve, hcnt]

/-- Claim C5 witness. -/
theorem C5_overflow_checks_witness :
    stack_reserve (U64 - 1) true junk0 (some dW2) = (.INVALID_ARGUMENT, some dW2) ∧
    stack_resize (U64 - 1) true junk0 (some dW2) = (.INVALID_ARGUMENT, some dW2) ∧
    (stack_create 2 2 (U64 - 1) junk0 none).1 = .INVALID_ARGUMENT ∧
    dynamic_array_reserve 5 true junk0 (some c3_d)
      = some (.SUCCESS, some { c3_d with
          memory_pool := some (zeroFill (freshBlock junk0
            (c3_d.max_element_count * c3_d.aligned_element_size % U64)) 0
            (c3_d.max_element_count * c3_d.aligned_element_size % U64)),
          buffer_capacity := c3_d.max_element_count * c3_d.aligned_element_size % U64,
          element_count := 0 }) :=
  ⟨C5_overflow_checks_stack_only.1 (U64 - 1) true junk0 dW2 (by decide) (by decide) (by decide),
   C5_overflow_checks_stack_only.2.1 (U64 - 1) true junk0 dW2 (by decide) (by decide) (by decide),
   C5_overflow_checks_stack_only.2.2.1 2 2 (U64 - 1) junk0 none (by decide) (by decide)
     (by decide) (by decide) (by decide),
   C5_overflow_checks_stack_only.2.2.2 5 junk0 c3_d (by decide)⟩


/-- Claim C6 counterexample.  dynamic_array_create with alignment 3 — not a
power of two — returns Success and builds a full state, instead of the
claimed InvalidArgument with no allocation. -/
theorem C6_counterexample :
    is_power_of_two 3 = false ∧
    dynamic_array_create 4 3 10 true junk0 none = (.SUCCESS, some c6_state) ∧
    DYNAMIC_ARRAY_ERROR_CODE.SUCCESS ≠ .INVALID_ARGUMENT := by decide

/-- Claim C6, amended.  stack_create rejects zero element size, zero
alignment, zero capacity and a non-power-of-two alignment with
InvalidArgument before any allocation, leaving the handle exactly as it
was; a capacity whose byte size would overflow is also rejected with
InvalidArgument, but only AFTER the internal state has been allocated
and flagged valid, so the handle is left non-Default with no buffer.
dynamic_array_create rejects only zero element size or zero alignment
(before any allocation, handle unchanged); it performs no power-of-two
and no overflow validation and succeeds on such arguments. -/
theorem C6_create_validation :
    (∀ (es align cnt : Nat) (junk : Nat → Nat) (s : Option stack_internal_data_t),
      es = 0 ∨ align = 0 ∨ cnt = 0 → stack_create es align cnt junk s = (.INVALID_ARGUMENT, s)) ∧
    (∀ (es align cnt : Nat) (junk : Nat → Nat) (s : Option stack_internal_data_t),
      is_power_of_two align = false → stack_create es align cnt junk s = (.INVALID_ARGUMENT, s)) ∧
    (∀ (es align cnt : Nat) (junk : Nat → Nat) (s : Option stack_internal_data_t),
      es ≠ 0 → align ≠ 0 → cnt ≠ 0 → is_power_of_two align = true →
      (U64 - 1) / cnt < stack_aligned_size es align →
      ∃ d, stack_create es align cnt junk s = (.INVALID_ARGUMENT, some d) ∧
        valid_stack (some d) = true ∧ d.memory_pool = none) ∧
    (∀ (es align cnt : Nat) (ok : Bool) (junk : Nat → Nat)
        (da : Option dynamic_array_internal_data_t),
      es = 0 ∨ align = 0 → dynamic_array_create es align cnt ok junk da = (.INVALID_ARGUMENT, da)) ∧
    (∀ (es align cnt : Nat) (junk : Nat → Nat) (da : Option dynamic_array_internal_data_t),
      es ≠ 0 → align ≠ 0 → (dynamic_array_create es align cnt true junk da).1 = .SUCCESS) := by
  refine ⟨?_, ?_, ?_, ?_, ?_⟩
  · intro es align cnt junk s h
    simp [stack_create, h]
  · intro es align cnt junk s hp
    by_cases h : es = 0 ∨ align = 0 ∨ cnt = 0
    · simp [stack_create, h]
    · simp [stack_create, h, hp]
  · intro es align cnt junk s hes hal hcnt hp2 hdiv
    refine ⟨{ element_size := es, buffer_size := 0, max_element_count := cnt,
              aligned_element_size := stack_aligned_size es align, top_index := 0,
              alignment_requirement := align,
              valid_flags := flag_set 1 true (flag_set 0 true (flag_set 2 true 0)),
              memory_pool := none }, ?_, ?_, rfl⟩
    · simp only [stack_create]
      rw [if_neg (by simp [hes, hal, hcnt]), if_neg (by simp [hp2]), if_pos hdiv]
    · simp [valid_stack, flag_get, flag_set]
  · intro es align cnt ok junk da h
    simp [dynamic_array_create, h]
  · intro es align cnt junk da hes hal
    have h : ¬ (es = 0 ∨ align = 0) := by simp [hes, hal]
    by_cases hcnt : cnt = 0
    · simp [dynamic_array_create, dynamic_array_reserve, h, hcnt]
    · simp [dynamic_array_create, dynamic_array_reserve, h, hcnt]

/-- Claim C6 witness. -/
theorem C6_create_validation_witness :
    stack_create 0 1 1 junk0 none = (.INVALID_ARGUMENT, none) ∧
    stack_create 4 3 10 junk0 none = (.INVALID_ARGUMENT, none) ∧
    (∃ d, stack_create 2 2 (U64 - 1) junk0 none = (.INVALID_ARGUMENT, some d) ∧
      valid_stack (some d) = true ∧ d.memory_pool = none) ∧
    dynamic_array_create 0 1 5 true junk0 none = (.INVALID_ARGUMENT, none) ∧
    (dynamic_array_create 4 3 10 true junk0 none).1 = .SUCCESS :=
  ⟨C6_create_validation.1 0 1 1 junk0 none (by decide),
   C6_create_validation.2.1 4 3 10 junk0 none (by decide),
   C6_create_validation.2.2.1 2 2 (U64 - 1) junk0 none (by decide) (by decide) (by decide)
     (by decide) (by decide),
   C6_create_validation.2.2.2.1 0 1 5 true junk0 none (by decide),
   C6_create_validation.2.2.2.2 4 3 10 junk0 none (by decide) (by decide)⟩

/-- Claim C7.  For every Ready stack (with the data-model invariant
top_index <= max_element_count), stack_full returns true, and
stack_push returns STACK_FULL, exactly when top_index equals
max_element_count; and after a successful create of capacity cnt,
exactly cnt pushes return SUCCESS and the next push returns STACK_FULL
— every slot of the created capacity is usable. -/
theorem C7_full_boundary_no_reserved_slot :
    (∀ (d : stack_internal_data_t) (data : List Nat),
      valid_stack (some d) = true → d.top_index ≤ d.max_element_count →
      ((stack_full (some d) = true ↔ d.top_index = d.max_element_count) ∧
       ((stack_push (some d) data).1 = .STACK_FULL ↔ d.top_index = d.max_element_count))) ∧
    (∀ (es align cnt : Nat) (junk : Nat → Nat) (s : Option stack_internal_data_t)
        (items : List (List Nat)) (extra : List Nat),
      es ≠ 0 → align ≠ 0 → cnt ≠ 0 → is_power_of_two align = true →
      es + (align - es % align) % align < U64 →
      stack_aligned_size es align ≤ (U64 - 1) / cnt →
      items.length = cnt →
      (stack_create es align cnt junk s).1 = .SUCCESS ∧
      (stack_push_all (stack_create es align cnt junk s).2 items).1
        = List.replicate cnt .SUCCESS ∧
      (stack_push (stack_push_all (stack_create es align cnt junk s).2 items).2 extra).1
        = .STACK_FULL) := by
  constructor
  · intro d data hv htm
    have hfull : stack_full (some d) = true ↔ d.top_index = d.max_element_count := by
      simp only [stack_full, hv, if_true, decide_eq_true_eq]
      omega
    refine ⟨hfull, ?_⟩
    constructor
    · intro h
      by_contra hne
      have hlt : d.top_index < d.max_element_count := by omega
      rw [stack_push_eq d data hv hlt] at h
      simp at h
    · intro he
      have hf : stack_full (some d) = true := hfull.mpr he
      simp [stack_push, hv, hf]
  · intro es align cnt junk s items extra hes hal hcnt hp2 hno hdiv hlen
    rw [stack_create_eq es align cnt junk s hes hal hcnt hp2 hdiv]
    have hwf := stack_created_wf es align cnt junk hcnt hno hdiv
    have hcap : (stack_created es align cnt junk).top_index + items.length
        ≤ (stack_created es align cnt junk).max_element_count := by
      show 0 + items.length ≤ cnt
      omega
    obtain ⟨d2, heq, hwf2, htop2, hes2, hA2, hmax2, hbuf2, hfl2, hlow2, hslot2⟩ :=
      stack_push_all_spec items (stack_created es align cnt junk) hwf hcap
    refine ⟨rfl, ?_, ?_⟩
    · show (stack_push_all (some (stack_created es align cnt junk)) items).1 = _
      rw [heq, hlen]
    · show (stack_push (stack_push_all (some (stack_created es align cnt junk)) items).2 extra).1
        = .STACK_FULL
      rw [heq]
      have hv2 : valid_stack (some d2) = true := hwf2.1
      have hfull2 : stack_full (some d2) = true := by
        simp only [stack_full, hv2, if_true, decide_eq_true_eq]
        have h1 : d2.top_index = 0 + items.length := by
          rw [htop2]; simp [stack_created]
        have h2 : d2.max_element_count = cnt := by
          rw [hmax2]; simp [stack_created]
        omega
      simp [stack_push, hv2, hfull2]

/-- Claim C7 witness. -/
theorem C7_full_boundary_witness :
    ((stack_full (some c8_stack) = true ↔ c8_stack.top_index = c8_stack.max_element_count) ∧
     ((stack_push (some c8_stack) [1]).1 = .STACK_FULL
        ↔ c8_stack.top_index = c8_stack.max_element_count)) ∧
    ((stack_create 1 1 2 junk0 none).1 = .SUCCESS ∧
     (stack_push_all (stack_create 1 1 2 junk0 none).2 [[3], [4]]).1
       = List.replicate 2 .SUCCESS ∧
     (stack_push (stack_push_all (stack_create 1 1 2 junk0 none).2 [[3], [4]]).2 [9]).1
       = .STACK_FULL) :=
  ⟨C7_full_boundary_no_reserved_slot.1 c8_stack [1] (by decide) (by decide),
   C7_full_boundary_no_reserved_slot.2 1 1 2 junk0 none [[3], [4]] [9] (by decide) (by decide)
     (by decide) (by decide) (by decide) (by decide) (by decide)⟩


/-- Claim C8.  LIFO law: on a well-formed, empty Ready stack with capacity
at least n, pushing the n items a1..an (each of element_size bytes) in
order returns SUCCESS n times, and then popping n times returns exactly
the items in reverse order an..a1 and leaves the stack empty. -/
theorem C8_stack_lifo (d : stack_internal_data_t) (items : List (List Nat))
    (hwf : StackWF d) (h0 : d.top_index = 0)
    (hcap : items.length ≤ d.max_element_count)
    (hlen : ∀ it ∈ items, it.length = d.element_size) :
    (stack_push_all (some d) items).1 = List.replicate items.length .SUCCESS ∧
    ∃ d2, stack_pop_n items.length (stack_push_all (some d) items).2
        = (items.reverse.map some, some d2) ∧
      stack_empty (some d2) = true := by
  obtain ⟨d1, heq, hwf1, htop1, hes1, hA1, hmax1, hbuf1, hfl1, hlow1, hslot1⟩ :=
    stack_push_all_spec items d hwf (by omega)
  constructor
  · rw [heq]
  · refine ⟨{ d1 with top_index := d1.top_index - items.length }, ?_, ?_⟩
    · rw [heq]
      rw [stack_pop_n_spec items.length d1 hwf1 (by omega)]
      have hlist : (List.range items.length).map
          (fun i => some (readBytes (d1.memory_pool.getD [])
            ((d1.top_index - 1 - i) * d1.aligned_element_size % U64) d1.element_size))
          = items.reverse.map some := by
        have hstep : ∀ i ∈ List.range items.length,
            some (readBytes (d1.memory_pool.getD [])
              ((d1.top_index - 1 - i) * d1.aligned_element_size % U64) d1.element_size)
            = some (items.getD (items.length - 1 - i) []) := by
          intro i hi
          rw [List.mem_range] at hi
          have hk : items.length - 1 - i < items.length := by omega
          obtain ⟨hv, hesA, htm, hbs, hU, hplen⟩ := hwf
          have hofflt : (items.length - 1 - i) * d.aligned_element_size < U64 := by
            have hle1 : (items.length - 1 - i) * d.aligned_element_size
                ≤ d.max_element_count * d.aligned_element_size :=
              Nat.mul_le_mul_right _ (by omega)
            have hc : d.max_element_count * d.aligned_element_size
                = d.aligned_element_size * d.max_element_count := Nat.mul_comm ..
            omega
          have hidx : d1.top_index - 1 - i = items.length - 1 - i := by omega
          rw [hidx, hA1, hes1, Nat.mod_eq_of_lt hofflt]
          have hs := hslot1 (items.length - 1 - i) hk
          rw [h0, Nat.zero_add] at hs
          rw [hs]
          have hmem : items.getD (items.length - 1 - i) [] ∈ items := by
            rw [getD_lt items _ [] hk]
            exact List.getElem_mem ..
          rw [readBytes_self _ _ (hlen _ hmem)]
        rw [List.map_congr_left hstep]
        have hcomp : (fun i => some (items.getD (items.length - 1 - i) []))
            = (some ∘ fun i => items.getD (items.length - 1 - i) []) := rfl
        rw [hcomp, ← List.map_map, range_map_getD_reverse]
      rw [hlist]
    · have hv2 : valid_stack (some { d1 with top_index := d1.top_index - items.length })
          = true := hwf1.1
      simp only [stack_empty, hv2, if_true, decide_eq_true_eq]
      show d1.top_index - items.length = 0
      omega

/-- Claim C8 witness. -/
theorem C8_stack_lifo_witness :
    (stack_push_all (some c8_stack) [[3], [4]]).1 = List.replicate 2 .SUCCESS ∧
    ∃ d2, stack_pop_n 2 (stack_push_all (some c8_stack) [[3], [4]]).2
        = ([some [4], some [3]], some d2) ∧
      stack_empty (some d2) = true :=
  C8_stack_lifo c8_stack [[3], [4]]
    ⟨by decide, by decide, by decide, by decide, by decide, by decide⟩
    (by decide) (by decide) (by decide)

/-- Claim C9 counterexample.  For element_size = 2^64 - 1 (nonzero) and the
power-of-two alignment 2 the computed stride wraps modulo 2^64 to 0,
which is NOT greater than or equal to the element size: the claimed
inequality fails for inputs whose stride addition overflows uint64. -/
theorem C9_counterexample :
    U64 - 1 ≠ 0 ∧ is_power_of_two 2 = true ∧
    stack_aligned_size (U64 - 1) 2 = 0 ∧
    ¬ (U64 - 1 ≤ stack_aligned_size (U64 - 1) 2) := by decide

/-- Claim C9, amended.  Both containers compute the per-slot stride by the
identical expression (element_size + ((alignment - element_size mod
alignment) mod alignment)) mod 2^64; whenever that uint64 addition does
not wrap, the stride equals the un-reduced formula, is at least the
element size and is divisible by the alignment requirement. -/
theorem C9_stride_formula (es align : Nat) (hes : es ≠ 0)
    (hp2 : is_power_of_two align = true)
    (hno : es + (align - es % align) % align < U64) :
    stack_aligned_size es align = darray_aligned_size es align ∧
    stack_aligned_size es align = es + (align - es % align) % align ∧
    es ≤ stack_aligned_size es align ∧
    align ∣ stack_aligned_size es align := by
  have hal : align ≠ 0 := by
    intro h
    rw [h] at hp2
    simp [is_power_of_two] at hp2
  have hAeq : stack_aligned_size es align = es + (align - es % align) % align :=
    Nat.mod_eq_of_lt hno
  refine ⟨rfl, hAeq, by rw [hAeq]; exact Nat.le_add_right .., ?_⟩
  rw [hAeq]
  by_cases hmod : es % align = 0
  · rw [hmod, Nat.sub_zero, Nat.mod_self, Nat.add_zero]
    exact Nat.dvd_of_mod_eq_zero hmod
  · have hlt : es % align < align := Nat.mod_lt es (Nat.pos_of_ne_zero hal)
    have hpadeq : (align - es % align) % align = align - es % align := by
      apply Nat.mod_eq_of_lt
      omega
    rw [hpadeq]
    have hdm := Nat.div_add_mod es align
    have hsplit : es + (align - es % align) = align * (es / align) + align := by omega
    rw [hsplit]
    exact Nat.dvd_add (Dvd.intro _ rfl) (Nat.dvd_refl align)

/-- Claim C9 witness. -/
theorem C9_stride_formula_witness :
    stack_aligned_size 6 4 = darray_aligned_size 6 4 ∧
    stack_aligned_size 6 4 = 6 + (4 - 6 % 4) % 4 ∧
    6 ≤ stack_aligned_size 6 4 ∧
    4 ∣ stack_aligned_size 6 4 :=
  C9_stride_formula 6 4 (by decide) (by decide) (by decide)

/-- Claim C10 counterexample.  After dynamic_array_create with capacity 0,
pushes fail with BUFFER_FULL as claimed; but a later reserve(5) leaves
the reported capacity at 0 and pushes still failing, and after
resize(3) pushes return SUCCESS although dynamic_array_capacity still
reports 0 — so pushes stop failing without any reserve/resize ever
having grown the capacity, contrary to the claim's closing clause. -/
theorem C10_counterexample :
    dynamic_array_create 1 1 0 true junk0 none = (.SUCCESS, some (darray_created0 1 1)) ∧
    (dynamic_array_element_push [9] (some (darray_created0 1 1))).1 = .BUFFER_FULL ∧
    dynamic_array_reserve 5 true junk0 (some (darray_created0 1 1))
      = some (.SUCCESS, some { darray_created0 1 1 with memory_pool := some [] }) ∧
    dynamic_array_capacity (some { darray_created0 1 1 with memory_pool := some [] })
      = (.SUCCESS, some 0) ∧
    (dynamic_array_element_push [9]
      (some { darray_created0 1 1 with memory_pool := some [] })).1 = .BUFFER_FULL ∧
    dynamic_array_resize 3 true true junk0 junk0 (some (darray_created0 1 1))
      = some (.SUCCESS, some { darray_created0 1 1 with max_element_count := 3, memory_pool := some [] }) ∧
    dynamic_array_capacity (some { darray_created0 1 1 with max_element_count := 3, memory_pool := some [] })
      = (.SUCCESS, some 0) ∧
    (dynamic_array_element_push [9]
      (some { darray_created0 1 1 with max_element_count := 3, memory_pool := some [] })).1
      = .SUCCESS := by decide

/-- Claim C10, amended.  dynamic_array_create with capacity 0 and valid
element size and alignment returns Success and yields a Ready handle on
which size and capacity both report 0 with Success, and
dynamic_array_element_push fails with BufferFull (not InvalidDarray)
and leaves the array unchanged.  A later resize to a nonzero count
makes pushes stop failing by raising max_element_count, but the
reported capacity remains 0, because reserve and resize size the new
buffer from the stored max_element_count. -/
theorem C10_zero_capacity_create (es align cnt : Nat) (junk j1 j2 : Nat → Nat)
    (da : Option dynamic_array_internal_data_t) (obj : List Nat)
    (hes : es ≠ 0) (hal : align ≠ 0) (hcnt : cnt ≠ 0) :
    dynamic_array_create es align 0 true junk da = (.SUCCESS, some (darray_created0 es align)) ∧
    dynamic_array_size (some (darray_created0 es align)) = (.SUCCESS, some 0) ∧
    dynamic_array_capacity (some (darray_created0 es align)) = (.SUCCESS, some 0) ∧
    dynamic_array_element_push obj (some (darray_created0 es align))
      = (.BUFFER_FULL, some (darray_created0 es align)) ∧
    dynamic_array_resize cnt true true j1 j2 (some (darray_created0 es align))
      = some (.SUCCESS, some { darray_created0 es align with max_element_count := cnt, memory_pool := some [] }) ∧
    dynamic_array_capacity (some { darray_created0 es align with max_element_count := cnt, memory_pool := some [] })
      = (.SUCCESS, some 0) ∧
    (dynamic_array_element_push obj
      (some { darray_created0 es align with max_element_count := cnt, memory_pool := some [] })).1
      = .SUCCESS := by
  have h : ¬ (es = 0 ∨ align = 0) := by simp [hes, hal]
  have hne : ¬ ((0 : Nat) = cnt) := fun hh => hcnt hh.symm
  refine ⟨?_, rfl, ?_, ?_, ?_, ?_, ?_⟩
  · simp [dynamic_array_create, dynamic_array_reserve, darray_created0, h]
  · simp [dynamic_array_capacity, darray_created0]
  · simp [dynamic_array_element_push, darray_created0]
  · simp [dynamic_array_resize, dynamic_array_reserve, darray_created0, hcnt,
      freshBlock, zeroFill, readBytes, writeBytes]
  · simp [dynamic_array_capacity, darray_created0]
  · simp [dynamic_array_element_push, darray_created0, hne]

/-- Claim C10 witness. -/
theorem C10_zero_capacity_witness :
    dynamic_array_create 1 1 0 true junk0 none = (.SUCCESS, some (darray_created0 1 1)) ∧
    dynamic_array_size (some (darray_created0 1 1)) = (.SUCCESS, some 0) ∧
    dynamic_array_capacity (some (darray_created0 1 1)) = (.SUCCESS, some 0) ∧
    dynamic_array_element_push [9] (some (darray_created0 1 1))
      = (.BUFFER_FULL, some (darray_created0 1 1)) ∧
    dynamic_array_resize 3 true true junk0 junk0 (some (darray_created0 1 1))
      = some (.SUCCESS, some { darray_created0 1 1 with max_element_count := 3, memory_pool := some [] }) ∧
    dynamic_array_capacity (some { darray_created0 1 1 with max_element_count := 3, memory_pool := some [] })
      = (.SUCCESS, some 0) ∧
    (dynamic_array_element_push [9]
      (some { darray_created0 1 1 with max_element_count := 3, memory_pool := some [] })).1
      = .SUCCESS :=
  C10_zero_capacity_create 1 1 3 junk0 junk0 junk0 none [9]
    (by decide) (by decide) (by decide)

end CUtil
